import Mathlib

/-!
Verification of `visualize_binary_size.py`: a one-shot report generator that
prints a fixed breakdown of a binary's size as an aligned text table.

Python strings are modelled as lists of characters (`Str`); each printed line
of the report is one `Str`.  Python's float arithmetic (used in `draw_bar`
and in the MB branch of `format_size`) is modelled exactly over the
integers: a binary64 value is a dyadic rational `m * 2^s` (`FP`), and `flR`
rounds a nonnegative rational to the nearest binary64 value with ties to
even, which is precisely what CPython's true division, float multiplication
and int-to-float conversion produce in the normal range exercised here.
-/

/-- A Python string, modelled as its list of characters. -/
abbrev Str := List Char

/-- Decimal digits of a natural number, e.g. `natStr 450 = ['4','5','0']`.
Models Python's `str()` / `f"{n}"` on a nonnegative int. -/
def natStr (n : Nat) : Str := Nat.toDigits 10 n

/-- Python `f"{s:>w}"`: right-justify by left-padding with spaces; a string
already at least `w` long is returned unchanged (truncated subtraction). -/
def padLeft (s : Str) (w : Nat) : Str := List.replicate (w - s.length) ' ' ++ s

/-- Python `f"{s:<w}"` (and the default `f"{s:w}"` for strings):
left-justify by right-padding with spaces. -/
def padRight (s : Str) (w : Nat) : Str := s ++ List.replicate (w - s.length) ' '

/-- Round `a / b` to the nearest integer, ties to even — the rounding used
both by IEEE-754 arithmetic and by CPython's fixed-point float formatting
(`b = 0` never occurs on the paths below). -/
def rneNat (a b : Nat) : Nat :=
  if 2 * (a % b) < b then a / b
  else if b < 2 * (a % b) then a / b + 1
  else if a / b % 2 = 0 then a / b else a / b + 1

/-- `⌊log₂ n⌋` (0 for `n ≤ 1`), computed by fuel recursion so that the
kernel can evaluate it. -/
def log2fuel : Nat → Nat → Nat
  | 0, _ => 0
  | fuel + 1, n => if n ≤ 1 then 0 else log2fuel fuel (n / 2) + 1

/-- `⌊log₂ n⌋` (0 for `n ≤ 1`). -/
def natLog2 (n : Nat) : Nat := log2fuel n n

/-- `⌈log₂ n⌉` for `n ≥ 1` (0 for `n ≤ 1`). -/
def natClog2 (n : Nat) : Nat := if n ≤ 1 then 0 else natLog2 (n - 1) + 1

/-- A nonnegative dyadic rational `m * 2^s`: the exact value of an IEEE-754
binary64 number. -/
structure FP where
  m : Nat
  s : Int
deriving DecidableEq

/-- The binade `⌊log₂ (a / b)⌋` of a positive rational `a / b`:
for `a / b ≥ 1` it is `⌊log₂ ⌊a / b⌋⌋`, otherwise `-⌈log₂ ⌈b / a⌉⌉`. -/
def blog (a b : Nat) : Int :=
  if b ≤ a then (natLog2 (a / b) : Int) else -(natClog2 ((b + a - 1) / a) : Int)

/-- The IEEE-754 binary64 value nearest to the positive rational `a / b`,
ties to even: the 53-bit significand nearest to `a / b * 2^(52-e)` at the
binade `e`, placed at scale `2^(e-52)`.  Only the normal range matters
here — every value this development evaluates `flR` at lies far from both
the subnormal threshold and the overflow threshold. -/
def flR (a b : Nat) : FP :=
  let e := blog a b
  if e ≤ 52 then ⟨rneNat (a * 2 ^ (52 - e).toNat) b, e - 52⟩
  else ⟨rneNat a (b * 2 ^ (e - 52).toNat), e - 52⟩

/-- Round a nonnegative dyadic to binary64 (used after an exact product of
two binary64 values, whose significand can need more than 53 bits). -/
def flFP (x : FP) : FP :=
  if 0 ≤ x.s then flR (x.m * 2 ^ x.s.toNat) 1 else flR x.m (2 ^ (-x.s).toNat)

/-- Correctly rounded binary64 product: round the exact product. -/
def mulFP (x y : FP) : FP := flFP ⟨x.m * y.m, x.s + y.s⟩

/-- Python `int()` on a nonnegative dyadic: truncation = floor. -/
def floorFP (x : FP) : Nat :=
  if 0 ≤ x.s then x.m * 2 ^ x.s.toNat else x.m / 2 ^ (-x.s).toNat

/-- Python `f"{x:.1f}"` on the exact value `m * 2^s` of a double: the
number of tenths nearest to it, ties to even (CPython formats a float by
correctly rounding its exact binary value to the requested number of
decimal digits, ties to even). -/
def rneTenths (x : FP) : Nat :=
  if 0 ≤ x.s then x.m * 10 * 2 ^ x.s.toNat
  else rneNat (x.m * 10) (2 ^ (-x.s).toNat)

/-- Renders `t` tenths with exactly one fractional digit:
integer part, '.', one digit. -/
def oneDecimal (t : Nat) : Str := natStr (t / 10) ++ '.' :: natStr (t % 10)

/-- `format_size` from the source:

    def format_size(kb):
        if kb >= 1024:
            return f"{kb/1024:.1f}MB"
        return f"{kb}KB"

`kb/1024` is CPython int/int true division — the double nearest to the
exact quotient, `flR kb 1024` — and `:.1f` renders that double's exact
value to the nearest tenth, ties to even. -/
def format_size (kb : Nat) : Str :=
  if 1024 ≤ kb then oneDecimal (rneTenths (flR kb 1024)) ++ ("MB".data)
  else natStr kb ++ ("KB".data)

/-- The filled-glyph count `int(percentage / 100 * width)` from `draw_bar`:
`percentage / 100` is int/int true division (one correctly rounded double),
`* width` converts `width` to double and multiplies with one more rounding,
and `int()` truncates (= floor, as everything is nonnegative). -/
def barFilled (percentage width : Nat) : Nat :=
  floorFP (mulFP (flR percentage 100) (flR width 1))

/-- `draw_bar` from the source:

    def draw_bar(percentage, width=50):
        filled = int(percentage / 100 * width)
        return "█" * filled + "░" * (width - filled)

Python string repetition by a negative count yields the empty string, which
truncated `Nat` subtraction models exactly. -/
def draw_bar (percentage width : Nat) : Str :=
  List.replicate (barFilled percentage width) '█'
    ++ List.replicate (width - barFilled percentage width) '░'

/-- One row of the fixed component table, as unpacked by the source's
`for name, size, pct, desc in components` loop.  The spec calls this record
`ComponentEntry` (`name`, size in KB, percentage, description). -/
structure ComponentEntry where
  name : Str
  size : Nat
  pct : Nat
  desc : Str
deriving DecidableEq

/-- The fixed component list embedded in `main` (source lines 26–38). -/
def components : List ComponentEntry :=
  [⟨("Nimini Runtime".data), 450, 37, ("Parser, VM, AST, backends, stdlib".data)⟩,
   ⟨("Feature Bindings".data), 200, 17, ("API exposure to scripts (*_bindings.nim)".data)⟩,
   ⟨("Standard Library".data), 150, 12, ("Nim stdlib (strings, tables, algorithms)".data)⟩,
   ⟨("Core Rendering".data), 120, 10, ("Layout, layers, terminal handling".data)⟩,
   ⟨("FIGlet System".data), 80, 7, ("Font rendering + embedded data".data)⟩,
   ⟨("Particle System".data), 60, 5, ("Particle engine + graphs".data)⟩,
   ⟨("HTTP Client".data), 44, 4, ("Gist loading (optional)".data)⟩,
   ⟨("Dungeon Gen".data), 40, 3, ("Procedural generation".data)⟩,
   ⟨("Audio System".data), 30, 2, ("Plugin loader".data)⟩,
   ⟨("ASCII Art".data), 30, 2, ("Art generators".data)⟩,
   ⟨("Other".data), 16, 1, ("Miscellaneous".data)⟩]

/-- The column header row,
`f"{'Component':<20} {'Size':>10} {'%':>5}  {'Bar':50}  {'Description':30}"`. -/
def headerFmt : Str :=
  padRight ("Component".data) 20 ++ (" ".data) ++ padLeft ("Size".data) 10
    ++ (" ".data) ++ padLeft ("%".data) 5 ++ ("  ".data)
    ++ padRight ("Bar".data) 50 ++ ("  ".data) ++ padRight ("Description".data) 30

/-- Everything of a table row before the description:
`f"{name:<20} {size_str:>10} {pct:>4}%  {bar}  "` with `bar = draw_bar(pct, 40)`
and `size_str = format_size(size)`. -/
def rowHead (c : ComponentEntry) : Str :=
  padRight c.name 20 ++ (" ".data) ++ padLeft (format_size c.size) 10
    ++ (" ".data) ++ padLeft (natStr c.pct) 4 ++ ("%  ".data)
    ++ draw_bar c.pct 40 ++ ("  ".data)

/-- One printed table row: the fields, then the description truncated by the
slice `desc[:50]`. -/
def rowLine (c : ComponentEntry) : Str := rowHead c ++ c.desc.take 50

/-- The title line of the banner. -/
def titleText : Str := ("TStorie Binary Size Breakdown (1.2 MB total)".data)

/-- Every line `main` prints, in order: banner, column header and rule, one
row per component, then the literal Key Insights and Optimization Strategy
sections (source lines 20–68; each `print(...)` is one list element). -/
def mainLines : List Str :=
  [List.replicate 80 '=',
   titleText,
   List.replicate 80 '=',
   [],
   headerFmt,
   List.replicate 135 '-']
  ++ components.map rowLine
  ++ [[],
      List.replicate 80 '=',
      ("Key Insights:".data),
      List.replicate 80 '=',
      [],
      ("  • Nimini scripting (37%) + Feature bindings (17%) = 54% of binary".data),
      ("    This provides the flexibility that makes tstorie scriptable".data),
      [],
      ("  • Core rendering engine is only ~120 KB (10%)".data),
      ("    The 180 KB WASM build proves the core is compact".data),
      [],
      ("  • Only 44 KB (4%) can be removed with -d:noGistLoading".data),
      ("    Most modules are interdependent and cannot be easily removed".data),
      [],
      ("Optimization Strategy:".data),
      [],
      ("  1. Make feature bindings conditional (~200 KB potential savings)".data),
      ("  2. Make embedded fonts optional (~50 KB savings)".data),
      ("  3. Consider plugin system for heavy features".data),
      ("  4. Create minimal/standard/full build variants".data),
      []]

/-- The report as a function of the ambient inputs a process could in
principle consult — environment variables, a clock, a random seed.  The
source's `main` reads none of them (it has no parameters and performs no
reads), so the embedding ignores all three arguments. -/
def mainRun (_env : List (Str × Str)) (_clock : Nat) (_seed : Nat) : List Str :=
  mainLines

/-- `headEq pat s`: does `s` start with `pat`? -/
def headEq : Str → Str → Bool
  | [], _ => true
  | _ :: _, [] => false
  | p :: ps, c :: cs => p = c && headEq ps cs

/-- `occurs pat s`: does `pat` occur as a contiguous substring of `s`? -/
def occurs (pat : Str) : Str → Bool
  | [] => pat.isEmpty
  | c :: cs => headEq pat (c :: cs) || occurs pat cs

/-- Recognises a numbered recommendation line: two spaces, a digit, a dot. -/
def isNumberedLine : Str → Bool
  | ' ' :: ' ' :: c :: '.' :: _ => c.isDigit
  | _ => false

/-! ### Facts about the float model -/

/-- Rounding an exact multiple of the denominator is exact. -/
lemma rneNat_mul_self (a b : Nat) (hb : 0 < b) : rneNat (a * b) b = a := by
  rw [rneNat, Nat.mul_mod_left, Nat.mul_div_cancel a hb]
  simp [hb]

/-- A common factor of numerator and denominator does not change the
rounded quotient. -/
lemma rneNat_mul_cancel (a b c : Nat) (hc : 0 < c) :
    rneNat (a * c) (b * c) = rneNat a b := by
  have hdiv : a * c / (b * c) = a / b := Nat.mul_div_mul_right a b hc
  have hmod : a * c % (b * c) = a % b * c := Nat.mul_mod_mul_right c a b
  have hlt1 : (2 * (a % b * c) < b * c) = (2 * (a % b) < b) := by
    rw [← mul_assoc]
    exact propext (Nat.mul_lt_mul_right hc)
  have hlt2 : (b * c < 2 * (a % b * c)) = (b < 2 * (a % b)) := by
    rw [← mul_assoc]
    exact propext (Nat.mul_lt_mul_right hc)
  simp only [rneNat, hdiv, hmod, hlt1, hlt2]

/-- The fuelled base-2 logarithm is bounded by the bit length. -/
lemma log2fuel_le : ∀ (fuel n k : Nat), n < 2 ^ (k + 1) → log2fuel fuel n ≤ k := by
  intro fuel
  induction fuel with
  | zero => intro n k _; simp [log2fuel]
  | succ f ih =>
    intro n k h
    rw [log2fuel]
    by_cases h1 : n ≤ 1
    · simp [h1]
    · rw [if_neg h1]
      cases k with
      | zero =>
        exfalso
        norm_num at h
        omega
      | succ j =>
        have hhalf : n / 2 < 2 ^ (j + 1) := by
          rw [Nat.div_lt_iff_lt_mul (by norm_num : 0 < 2)]
          calc n < 2 ^ (j + 2) := h
          _ = 2 ^ (j + 1) * 2 := by rw [pow_succ]
        have := ih (n / 2) j hhalf
        omega

/-- `natLog2 n ≤ k` whenever `n < 2^(k+1)`. -/
lemma natLog2_le (n k : Nat) (h : n < 2 ^ (k + 1)) : natLog2 n ≤ k :=
  log2fuel_le n n k h

/-! ### The claims -/

/-- Claim C1: `main` prints exactly 11 data rows, one per `ComponentEntry`,
in the order of the embedded list — starting with the Nimini Runtime entry
and ending with the Other entry; the first row's size field reads "450KB"
and its percentage field reads "37%"; and the output ends with the literal
"Optimization Strategy" section containing exactly 4 numbered
recommendation lines. -/
theorem c1_report_output :
    components.length = 11
    ∧ mainLines.length = 38
    ∧ (∀ i : ℕ, i < 11 → mainLines[6 + i]? = (components[i]?).map rowLine)
    ∧ components[0]? =
        some ⟨("Nimini Runtime".data), 450, 37,
              ("Parser, VM, AST, backends, stdlib".data)⟩
    ∧ components[10]? = some ⟨("Other".data), 16, 1, ("Miscellaneous".data)⟩
    ∧ ((mainLines[6]?.getD []).drop 21).take 10 = ("     450KB".data)
    ∧ (((mainLines[6]?.getD []).drop 21).take 10).dropWhile (· = ' ')
        = ("450KB".data)
    ∧ ((mainLines[6]?.getD []).drop 32).take 5 = ("  37%".data)
    ∧ (((mainLines[6]?.getD []).drop 32).take 5).dropWhile (· = ' ')
        = ("37%".data)
    ∧ mainLines.drop 31 =
        [("Optimization Strategy:".data), [],
         ("  1. Make feature bindings conditional (~200 KB potential savings)".data),
         ("  2. Make embedded fonts optional (~50 KB savings)".data),
         ("  3. Consider plugin system for heavy features".data),
         ("  4. Create minimal/standard/full build variants".data),
         []]
    ∧ mainLines.countP isNumberedLine = 4 := by decide

/-- Claim C2: `format_size` renders a size below 1024 as the integer value
followed by "KB", and a size of at least 1024 (within the 53-bit range in
which Python's doubles are exact on the inputs) as the value divided by
1024 rounded to the nearest tenth — exactly one fractional digit — followed
by "MB"; in particular `format_size 450 = "450KB"`,
`format_size 1024 = "1.0MB"`, `format_size 1536 = "1.5MB"` and
`format_size 0 = "0KB"`. -/
theorem c2_format_size :
    (∀ kb : ℕ, kb < 1024 → format_size kb = natStr kb ++ ("KB".data))
    ∧ (∀ kb : ℕ, 1024 ≤ kb → kb < 2 ^ 53 →
        format_size kb = oneDecimal (rneNat (kb * 10) 1024) ++ ("MB".data))
    ∧ format_size 450 = ("450KB".data)
    ∧ format_size 1024 = ("1.0MB".data)
    ∧ format_size 1536 = ("1.5MB".data)
    ∧ format_size 0 = ("0KB".data) := by
  refine ⟨?_, ?_, by decide, by decide, by decide, by decide⟩
  · intro kb h
    simp only [format_size, if_neg (by omega : ¬ 1024 ≤ kb)]
  · intro kb h1 h2
    simp only [format_size, if_pos h1]
    suffices h : rneTenths (flR kb 1024) = rneNat (kb * 10) 1024 by rw [h]
    have hE : natLog2 (kb / 1024) ≤ 42 := by
      apply natLog2_le
      rw [Nat.div_lt_iff_lt_mul (by norm_num : 0 < 1024)]
      calc kb < 2 ^ 53 := h2
      _ = 2 ^ (42 + 1) * 1024 := by norm_num
    set E := natLog2 (kb / 1024) with hEdef
    have hbl : blog kb 1024 = (E : ℤ) := by rw [blog, if_pos h1]
    have ht1 : ((52 : ℤ) - (E : ℤ)).toNat = 52 - E := by omega
    have hflR : flR kb 1024 = ⟨kb * 2 ^ (42 - E), (E : ℤ) - 52⟩ := by
      simp only [flR]
      rw [hbl, if_pos (by omega : (E : ℤ) ≤ 52), ht1]
      have hsplit : (2 : ℕ) ^ (52 - E) = 2 ^ (42 - E) * 1024 := by
        rw [show (1024 : ℕ) = 2 ^ 10 from by norm_num, ← pow_add]
        congr 1
        omega
      rw [hsplit, ← mul_assoc, rneNat_mul_self _ _ (by norm_num)]
    rw [hflR]
    simp only [rneTenths]
    rw [if_neg (by omega : ¬ (0 : ℤ) ≤ (E : ℤ) - 52)]
    have ht2 : (-((E : ℤ) - 52)).toNat = 52 - E := by omega
    rw [ht2]
    have hsplit2 : (2 : ℕ) ^ (52 - E) = 1024 * 2 ^ (42 - E) := by
      rw [show (1024 : ℕ) = 2 ^ 10 from by norm_num, ← pow_add]
      congr 1
      omega
    have harr : kb * 2 ^ (42 - E) * 10 = kb * 10 * 2 ^ (42 - E) := by ring
    rw [hsplit2, harr, rneNat_mul_cancel (kb * 10) 1024 (2 ^ (42 - E)) (by positivity)]

/-- Witness for C2 at `kb = 1536`: both hypotheses hold and the MB branch
renders `1536 * 10 / 1024` rounded = 15 tenths, i.e. "1.5MB". -/
theorem c2_format_size_witness :
    format_size 1536 = oneDecimal (rneNat (1536 * 10) 1024) ++ ("MB".data) :=
  c2_format_size.2.1 1536 (by norm_num) (by norm_num)

/-- Claim C3 is false as stated: at `percentage = 29`, `width = 100` the
filled count computed through Python's doubles is
`int(28.999999999999996) = 28`, not `floor(29 * 100 / 100) = 29`. -/
theorem c3_counterexample :
    ¬ (draw_bar 29 100 =
        List.replicate ((29 * 100) / 100) '█'
          ++ List.replicate (100 - (29 * 100) / 100) '░') := by decide

/-- Claim C3, amended to the width the report uses: for every percentage
`p ≤ 100` and the report's width 40, `draw_bar p 40` is a string of exactly
40 characters whose first `⌊p * 40 / 100⌋` characters are the filled glyph
and whose remainder are the empty glyph (truncation, not rounding: 37 gives
14 filled and 26 empty, 0 gives all empty, 100 gives all filled). -/
theorem c3_bar_width40 :
    ∀ p : ℕ, p < 101 →
      draw_bar p 40 =
          List.replicate ((p * 40) / 100) '█'
            ++ List.replicate (40 - (p * 40) / 100) '░'
        ∧ (draw_bar p 40).length = 40 := by decide

/-- Witness for the amended C3 at `p = 37`: 14 filled, 26 empty, length 40. -/
theorem c3_bar_width40_witness :
    draw_bar 37 40 =
        List.replicate ((37 * 40) / 100) '█'
          ++ List.replicate (40 - (37 * 40) / 100) '░'
      ∧ (draw_bar 37 40).length = 40 :=
  c3_bar_width40 37 (by norm_num)

/-- Claim C4 is false as stated: the embedded percentages do sum to 100. -/
theorem c4_counterexample : ¬ ((components.map (·.pct)).sum ≠ 100) := by decide

/-- Claim C4, amended: the percentage fields of the 11 embedded
`ComponentEntry` records sum to exactly 100. -/
theorem c4_percentages_sum :
    (components.map (·.pct)).sum = 100 ∧ components.length = 11 := by decide

/-- Claim C5 is false as stated: the header row does not contain the label
"Percentage" — the percentage column is labeled "%". -/
theorem c5_counterexample :
    mainLines[4]? = some headerFmt
      ∧ occurs ("Percentage".data) headerFmt = false := by decide

/-- Claim C5, amended: the report's column header row contains the five
column labels Component, Size, % (the percentage column), Bar and
Description, and is followed by a dashed rule line of 135 dashes. -/
theorem c5_header_labels :
    occurs ("Component".data) headerFmt = true
    ∧ occurs ("Size".data) headerFmt = true
    ∧ occurs ("%".data) headerFmt = true
    ∧ occurs ("Bar".data) headerFmt = true
    ∧ occurs ("Description".data) headerFmt = true
    ∧ mainLines[4]? = some headerFmt
    ∧ mainLines[5]? = some (List.replicate 135 '-') := by decide

/-- Claim C6: in every printed table row, a description longer than 50
characters is truncated to exactly 50 characters, and a description of 50
characters or fewer is printed unmodified. -/
theorem c6_description_truncation :
    ∀ c : ComponentEntry,
      (c.desc.length ≤ 50 → rowLine c = rowHead c ++ c.desc)
      ∧ (50 < c.desc.length →
          rowLine c = rowHead c ++ c.desc.take 50
            ∧ (c.desc.take 50).length = 50) := by
  intro c
  constructor
  · intro h
    rw [rowLine, List.take_of_length_le h]
  · intro h
    refine ⟨rfl, ?_⟩
    rw [List.length_take]
    omega

/-- An entry whose description is longer than 50 characters, exercising the
truncating branch of C6. -/
def longDescEntry : ComponentEntry :=
  ⟨("Example".data), 10, 5,
   ("a description well over fifty characters long, exercising the slice".data)⟩

/-- Witness for C6 at a 67-character description: the printed row carries
exactly the first 50 characters. -/
theorem c6_description_truncation_witness :
    rowLine longDescEntry = rowHead longDescEntry ++ longDescEntry.desc.take 50
      ∧ (longDescEntry.desc.take 50).length = 50 :=
  (c6_description_truncation longDescEntry).2 (by decide)

/-- Claim C7: the report is deterministic — its output does not depend on
the environment, a clock, or a random seed, so any two runs produce
byte-identical output. -/
theorem c7_deterministic :
    ∀ (e₁ e₂ : List (Str × Str)) (c₁ c₂ s₁ s₂ : Nat),
      mainRun e₁ c₁ s₁ = mainRun e₂ c₂ s₂ := by
  intro _ _ _ _ _ _
  rfl

/-- Claim C8 is false as stated: at `percentage = 113 > 100`,
`width = 100`, the filled count computed through Python's doubles is
`int(112.99999999999999) = 112`, not `floor(113 * 100 / 100) = 113`. -/
theorem c8_counterexample :
    ¬ (draw_bar 113 100 =
        List.replicate ((113 * 100) / 100) '█'
          ++ List.replicate (100 - (113 * 100) / 100) '░') := by decide

/-- Claim C8, amended: the bar renderer does not clamp percentages above
100 — for every `p > 100` and width `w > 0` (both within the 53-bit range
where int-to-double conversion is exact), `draw_bar p w` consists of
`barFilled p w` filled glyphs (the double-rounded truncated count, which
can fall short of `⌊p * w / 100⌋`, as at `p = 113`, `w = 100`) followed by
`max 0 (w - barFilled p w)` empty glyphs, so whenever the filled count
exceeds `w` the returned string is longer than `w` characters. -/
theorem c8_no_clamp :
    ∀ p w : ℕ, 100 < p → 0 < w → p ≤ 2 ^ 53 → w ≤ 2 ^ 53 →
      draw_bar p w =
          List.replicate (barFilled p w) '█'
            ++ List.replicate (w - barFilled p w) '░'
        ∧ (w < barFilled p w → w < (draw_bar p w).length) := by
  intro p w _ _ _ _
  refine ⟨rfl, ?_⟩
  intro hf
  rw [draw_bar, List.length_append, List.length_replicate, List.length_replicate]
  omega

/-- Witness for the amended C8 at `p = 250`, `w = 40`: the filled count is
`int(2.5 * 40) = 100 > 40` and the returned string overflows the width. -/
theorem c8_no_clamp_witness :
    barFilled 250 40 = 100 ∧ 40 < (draw_bar 250 40).length :=
  ⟨by decide,
   (c8_no_clamp 250 40 (by norm_num) (by norm_num) (by norm_num)
      (by norm_num)).2 (by decide)⟩

/-- Claim C9: for every percentage `p ≤ 100` (i.e. `p < 101`),
`draw_bar p 0` with width 0 returns the empty string: the filled count is
`int(x * 0.0) = 0` and zero glyphs of each kind are emitted. -/
theorem c9_zero_width : ∀ p : ℕ, p < 101 → draw_bar p 0 = [] := by decide

/-- Witness for C9 at `p = 37`. -/
theorem c9_zero_width_witness : draw_bar 37 0 = [] :=
  c9_zero_width 37 (by norm_num)

/-- Claim C10: the sizes of the 11 embedded entries sum to 1220 KB,
`format_size 1220 = "1.2MB"`, and this agrees with the total size figure
"1.2 MB" stated in the title banner line of the report. -/
theorem c10_total_consistency :
    (components.map (·.size)).sum = 1220
    ∧ format_size 1220 = ("1.2MB".data)
    ∧ occurs ("1.2 MB".data) titleText = true
    ∧ mainLines[1]? = some titleText := by decide

